import Mathlib

/-!
Verification development for the mbserver Modbus slave library.

The source files `server.go` and `servetcp.go` are embedded shallowly:
pure control flow becomes Lean functions, goroutine interaction with the
outside world (socket reads, accepted connections, bind results) becomes
explicit finite traces of events, and side effects (log lines, hook
firings, writes on a connection) become explicit output lists.

The repository's frame, exception and built-in function-handler files are
not part of the two embedded sources; where a claim depends on them they
are modelled from the specification's boundary contract (each such
definition says so in its doc comment).
-/

namespace Mbserver

/-- Modelled from the spec: the Framer capability set (get function code,
get/set payload bytes, set exception overriding any payload, header
preserving copy, serialization).  The concrete TCP/RTU frame encodings are
outside the embedded sources; requests parsed from the wire carry no
exception. -/
structure Framer where
  header : List Nat
  function : Fin 256
  payload : List Nat
  exception : Option Nat
deriving DecidableEq

def Framer.GetFunction (f : Framer) : Fin 256 := f.function

/-- Header-preserving copy used to build a response from a request. -/
def Framer.Copy (f : Framer) : Framer := f

def Framer.SetData (f : Framer) (d : List Nat) : Framer := { f with payload := d }

/-- Modelled from the spec: setting an exception must discard/override any
previously set payload. -/
def Framer.SetException (f : Framer) (e : Nat) : Framer :=
  { f with exception := some e, payload := [] }

/-- Modelled from the spec: the closed set of protocol exception values that
exist as package-level variables (Success, IllegalFunction, ...). -/
inductive CanonicalExc where
  | success
  | illegalFunction
  | illegalDataAddress
  | illegalDataValue
  | slaveDeviceFailure
deriving DecidableEq

def CanonicalExc.code : CanonicalExc → Nat
  | .success => 0
  | .illegalFunction => 1
  | .illegalDataAddress => 2
  | .illegalDataValue => 3
  | .slaveDeviceFailure => 4

/-- A Go `*Exception` value: either a pointer to one of the canonical
package-level exception variables, or a pointer to a fresh allocation
(identified by an allocation id) carrying some code.  Pointer equality in
`handle` (`exception != &Success`) is equality of `ExcRef`; a fresh
allocation is never pointer-equal to a canonical variable even when it
carries the same code. -/
inductive ExcRef where
  | canon : CanonicalExc → ExcRef
  | fresh : Nat → Nat → ExcRef
deriving DecidableEq

def ExcRef.code : ExcRef → Nat
  | .canon c => c.code
  | .fresh _ k => k

/-- The four Modbus memory banks owned by the server. -/
structure Banks where
  discreteInputs : List Nat
  coils : List Nat
  holdingRegisters : List Nat
  inputRegisters : List Nat
deriving DecidableEq

/-- A function-table entry.  The Go handler receives the `*Server`; by the
handler contract (§4.4 of the spec) it is a function of the bank state and
the request frame, returning response payload bytes and an exception, and
possibly mutating the banks through the server pointer, which the embedding
makes explicit by returning the new bank state. -/
def Handler := Banks → Framer → (Banks × List Nat × ExcRef)

/-- The server state relevant to the embedded sources: the function table,
the memory banks, the recorded listeners and serial ports, hook lists, and
the runtime facts the claims are about (whether the ports stop signal has
been sent, whether the request channel is open, whether the dispatcher
goroutine is running). -/
structure Server where
  function : Fin 256 → Option Handler
  banks : Banks
  listeners : List Nat
  ports : List Nat
  portsCloseChanClosed : Bool
  requestChanOpen : Bool
  dispatcherRunning : Bool
  serverStartedEvent : List Nat
  serverStoppedEvent : List Nat

/-- Embedding of `Server.RegisterFunctionHandler` (server.go:69-71). -/
def Server.RegisterFunctionHandler (s : Server) (funcCode : Fin 256) (f : Handler) :
    Server :=
  { s with function := fun c => if c = funcCode then some f else s.function c }

/-- Embedding of `Server.handle` (server.go:73-92): copy the request frame,
look up the function code, on a hit run the handler and set its payload on
the response, on a miss take the canonical IllegalFunction; finally, if the
exception is not pointer-identical to the canonical Success, set it on the
response. -/
def Server.handle (s : Server) (request : Framer) : Server × Framer :=
  let response := request.Copy
  let fn := request.GetFunction
  let step :=
    match s.function fn with
    | some h =>
        let out := h s.banks request
        ({ s with banks := out.1 }, response.SetData out.2.1, out.2.2)
    | none => (s, response, ExcRef.canon .illegalFunction)
  let final :=
    if step.2.2 ≠ ExcRef.canon .success then step.2.1.SetException step.2.2.code
    else step.2.1
  (step.1, final)

/-- Embedding of the dispatcher loop body applied to a finite sequence of
requests (server.go:95-112): each request is handled in order and exactly
one response frame is written back for it. -/
def dispatchLoop (s : Server) : List Framer → (Server × List Framer)
  | [] => (s, [])
  | f :: fs =>
      let r := s.handle f
      let rest := dispatchLoop r.1 fs
      (rest.1, r.2 :: rest.2)

/-- Outcome of one `conn.Read` in the connection worker: either some bytes
were read, or the read failed (`eof` records whether the error was the clean
end-of-stream, which is not logged). -/
inductive ReadResult where
  | bytes : List Nat → ReadResult
  | readErr : Bool → ReadResult
deriving DecidableEq

/-- Result of `NewTCPFrame` on the read bytes: a parsed frame or a parse
error.  The parser itself is outside the embedded sources, so the worker is
parameterized by it. -/
inductive ParseResult where
  | frame : Framer → ParseResult
  | parseErr : String → ParseResult
deriving DecidableEq

/-- One iteration of the connection-worker loop (servetcp.go:37-58): a read
failure or a parse failure makes the worker return, forwarding nothing;
otherwise the parsed frame is sent on the request channel. -/
def workerIteration (parse : List Nat → ParseResult) : ReadResult → Option Framer
  | .readErr _ => none
  | .bytes bs =>
      match parse bs with
      | .parseErr _ => none
      | .frame f => some f

/-- The connection-worker loop over a finite trace of read outcomes: the
list of frames forwarded on the request channel, and whether the worker
terminated (returned) within the trace. -/
def workerRun (parse : List Nat → ParseResult) :
    List ReadResult → (List Framer × Bool)
  | [] => ([], false)
  | r :: rest =>
      match workerIteration parse r with
      | none => ([], true)
      | some f =>
          let rec_ := workerRun parse rest
          (f :: rec_.1, rec_.2)

/-- Response frames the dispatcher writes back on one connection, given the
trace of reads on that connection: exactly one response per forwarded
request (server.go:104), none for anything else. -/
def connWrites (s : Server) (parse : List Nat → ParseResult)
    (reads : List ReadResult) : List Framer :=
  (dispatchLoop s (workerRun parse reads).1).2

/-- Outcome of one `listen.Accept` call: a new connection (identified by a
number) or an error with its message string. -/
inductive AcceptResult where
  | conn : Nat → AcceptResult
  | acceptErr : String → AcceptResult
deriving DecidableEq

def charsLeadWith : List Char → List Char → Bool
  | [], _ => true
  | _ :: _, [] => false
  | p :: ps, c :: cs => p == c && charsLeadWith ps cs

def charsContain (pat : List Char) : List Char → Bool
  | [] => charsLeadWith pat []
  | c :: cs => charsLeadWith pat (c :: cs) || charsContain pat cs

/-- Model of Go `strings.Contains s pat`. -/
def goContains (s pat : String) : Bool := charsContain pat.toList s.toList

/-- The error message fragment servetcp.go:14 looks for to recognize that
the listener was closed. -/
def closedListenerMsg : String := "use of closed network connection"

/-- How the accept loop ended on a finite trace of accept outcomes. -/
inductive AcceptOutcome where
  | running
  | returnedNil
  | returnedErr : String → AcceptOutcome
deriving DecidableEq

/-- Embedding of the accept loop (servetcp.go:10-61) on a finite trace of
accept outcomes: the connections handed to spawned workers, the log lines
emitted, and how (whether) the loop returned.  An error whose message
contains the closed-listener fragment makes the loop return nil silently;
any other error is logged and returned. -/
def acceptLoop : List AcceptResult → (List Nat × List String × AcceptOutcome)
  | [] => ([], [], .running)
  | .conn c :: rest =>
      let r := acceptLoop rest
      (c :: r.1, r.2.1, r.2.2)
  | .acceptErr m :: _ =>
      if goContains m closedListenerMsg then ([], [], .returnedNil)
      else ([], ["Unable to accept connections: " ++ m], .returnedErr m)

/-- Outcome of the `net.Listen` call inside ListenTCP: a listener (numbered)
or a bind error message. -/
inductive BindResult where
  | ok : Nat → BindResult
  | bindErr : String → BindResult
deriving DecidableEq

/-- Observable steps ListenTCP performs. -/
inductive ListenEvent where
  | log : String → ListenEvent
  | firedStarted : Nat → Nat → ListenEvent
  | startedAcceptLoop : Nat → ListenEvent
deriving DecidableEq

/-- Embedding of `Server.ListenTCP` (servetcp.go:64-78): a bind failure is
logged and returned with the server untouched; on success every
server-started hook fires in registration order with the new listener, the
listener is appended to the recorded listeners, the accept loop is started
on a background task, and nil is returned. -/
def Server.ListenTCP (s : Server) (bind : BindResult) :
    Server × Option String × List ListenEvent :=
  match bind with
  | .bindErr m => (s, some m, [.log ("Failed to Listen: " ++ m)])
  | .ok l =>
      ({ s with listeners := s.listeners ++ [l] },
       none,
       s.serverStartedEvent.map (fun h => ListenEvent.firedStarted h l)
         ++ [ListenEvent.startedAcceptLoop l])

/-- Observable steps `Server.Close` performs, in order. -/
inductive CloseAction where
  | closeListener : Nat → CloseAction
  | fireStopped : Nat → Nat → CloseAction
  | signalStop : CloseAction
  | waitBarrier : CloseAction
  | closePort : Nat → CloseAction
deriving DecidableEq

/-- Embedding of the action trace of `Server.Close` (server.go:115-131):
for each recorded listener, close it then fire each server-stopped hook
with it; then close the ports stop channel; then wait on the ports
wait group (the counted barrier that reaches zero only once every
port-style worker has exited); then close each recorded port. -/
def Server.closeTrace (s : Server) : List CloseAction :=
  (s.listeners.flatMap (fun l =>
      CloseAction.closeListener l
        :: s.serverStoppedEvent.map (fun h => CloseAction.fireStopped h l)))
    ++ [CloseAction.signalStop, CloseAction.waitBarrier]
    ++ s.ports.map CloseAction.closePort

/-- Embedding of the effect of `Server.Close` on the server state: the only
field of the embedded state it changes is the stop-channel flag.  It does
not touch the function table, the banks, the request channel or the
dispatcher goroutine. -/
def Server.closeState (s : Server) : Server :=
  { s with portsCloseChanClosed := true }

/-- The dispatcher goroutine receives a request iff it is running and the
request channel is open (server.go:96). -/
def Server.dispatcherReceives (s : Server) : Bool :=
  s.dispatcherRunning && s.requestChanOpen

/-! Concrete inputs used by the witness theorems. -/

def wBanks : Banks :=
  { discreteInputs := [0], coils := [0], holdingRegisters := [0, 0],
    inputRegisters := [0] }

def wFrame : Framer :=
  { header := [0, 1, 0, 0], function := 3, payload := [0, 10, 0, 1],
    exception := none }

def wHandlerOk : Handler := fun b _ => (b, [2, 0, 9], ExcRef.canon .success)

def wHandlerExc : Handler := fun b _ => (b, [2, 0, 9], ExcRef.canon .illegalDataValue)

def wHandlerFresh : Handler := fun b _ => (b, [2, 0, 9], ExcRef.fresh 42 0)

def baseServer (tbl : Fin 256 → Option Handler) : Server :=
  { function := tbl, banks := wBanks, listeners := [4, 5], ports := [9],
    portsCloseChanClosed := false, requestChanOpen := true,
    dispatcherRunning := true, serverStartedEvent := [0, 1],
    serverStoppedEvent := [0, 1] }

def wServerOk : Server := baseServer (fun _ => some wHandlerOk)

def wServerExc : Server := baseServer (fun _ => some wHandlerExc)

def wServerFresh : Server := baseServer (fun _ => some wHandlerFresh)

def wServerEmpty : Server := baseServer (fun _ => none)

/-- C1: for a registered function code, dispatch invokes the handler on the
server's banks and the request frame; when the handler returns the canonical
Success exception, the response carries no exception and its payload is
exactly the payload the handler returned. -/
theorem dispatch_registered_success (s : Server) (req : Framer) (h : Handler)
    (hreg : s.function req.GetFunction = some h)
    (hnoexc : req.exception = none)
    (hsucc : (h s.banks req).2.2 = ExcRef.canon .success) :
    ((s.handle req).2).exception = none ∧
    ((s.handle req).2).payload = (h s.banks req).2.1 := by
  simp only [Server.handle, hreg, hsucc, Framer.Copy, Framer.SetData]
  simp [hnoexc]

/-- Witness for C1 at a concrete server whose handler returns payload
[2, 0, 9] with the canonical Success. -/
theorem dispatch_registered_success_witness :
    ((wServerOk.handle wFrame).2).exception = none ∧
    ((wServerOk.handle wFrame).2).payload = [2, 0, 9] :=
  dispatch_registered_success wServerOk wFrame wHandlerOk rfl rfl rfl

/-- C2: for a function code with no entry in the function table, dispatch
answers with the IllegalFunction exception code and an empty payload, and
never runs a handler (the banks are unchanged). -/
theorem dispatch_unregistered (s : Server) (req : Framer)
    (hnone : s.function req.GetFunction = none) :
    ((s.handle req).2).exception = some CanonicalExc.illegalFunction.code ∧
    ((s.handle req).2).payload = [] ∧
    (s.handle req).1 = s := by
  simp [Server.handle, hnone, Framer.Copy, Framer.SetException, ExcRef.code]

/-- Witness for C2 at a concrete server with an empty function table. -/
theorem dispatch_unregistered_witness :
    ((wServerEmpty.handle wFrame).2).exception =
        some CanonicalExc.illegalFunction.code ∧
    ((wServerEmpty.handle wFrame).2).payload = [] ∧
    (wServerEmpty.handle wFrame).1 = wServerEmpty :=
  dispatch_unregistered wServerEmpty wFrame rfl

/-- C3: when the handler's exception is not the canonical Success, the
dispatcher sets it on the response, which discards the handler payload that
had been set on the response; when it is Success, the response carries the
computed payload and no exception. -/
theorem dispatch_exception_overrides (s : Server) (req : Framer) (h : Handler)
    (hreg : s.function req.GetFunction = some h)
    (hnoexc : req.exception = none) :
    ((h s.banks req).2.2 ≠ ExcRef.canon .success →
        ((s.handle req).2).exception = some ((h s.banks req).2.2).code ∧
        ((s.handle req).2).payload = []) ∧
    ((h s.banks req).2.2 = ExcRef.canon .success →
        ((s.handle req).2).exception = none ∧
        ((s.handle req).2).payload = (h s.banks req).2.1) := by
  constructor
  · intro hne
    simp [Server.handle, hreg, hne, Framer.Copy, Framer.SetData,
      Framer.SetException]
  · intro heq
    simp [Server.handle, hreg, heq, Framer.Copy, Framer.SetData, hnoexc]

/-- Witness for C3 at a concrete server whose handler returns payload
[2, 0, 9] with the canonical IllegalDataValue exception: the response
carries the exception code and the payload is discarded. -/
theorem dispatch_exception_overrides_witness :
    ((wServerExc.handle wFrame).2).exception =
        some CanonicalExc.illegalDataValue.code ∧
    ((wServerExc.handle wFrame).2).payload = [] :=
  (dispatch_exception_overrides wServerExc wFrame wHandlerExc rfl rfl).1
    (by decide)

/-- C9: success is decided by pointer identity with the canonical Success
variable: a handler returning a freshly allocated exception that carries the
success code 0 is treated as a failure, and that exception is set on the
response, overriding the payload. -/
theorem success_pointer_identity (s : Server) (req : Framer) (h : Handler)
    (n : Nat)
    (hreg : s.function req.GetFunction = some h)
    (hfresh : (h s.banks req).2.2 = ExcRef.fresh n 0) :
    ((s.handle req).2).exception = some 0 ∧
    ((s.handle req).2).payload = [] := by
  simp [Server.handle, hreg, hfresh, Framer.Copy, Framer.SetData,
    Framer.SetException, ExcRef.code]

/-- Witness for C9 at a concrete server whose handler returns a fresh
exception allocation with code 0. -/
theorem success_pointer_identity_witness :
    ((wServerFresh.handle wFrame).2).exception = some 0 ∧
    ((wServerFresh.handle wFrame).2).payload = [] :=
  success_pointer_identity wServerFresh wFrame wHandlerFresh 42 rfl rfl

def wParse : List Nat → ParseResult :=
  fun bs => if bs = [6] then ParseResult.frame wFrame else ParseResult.parseErr "bad packet"

/-- C5: a failing connection-worker iteration — a read error (clean
end-of-stream included) or a parse failure — terminates the worker and
contributes no forwarded request, so the responses the dispatcher writes on
that connection are exactly those for the requests forwarded before the
failure: the failure itself produces zero response bytes. -/
theorem worker_failure_silent (parse : List Nat → ParseResult) (s : Server)
    (good : List ReadResult) (r : ReadResult) (rest : List ReadResult)
    (hfail : workerIteration parse r = none) :
    (workerRun parse (good ++ r :: rest)).1 = (workerRun parse good).1 ∧
    (workerRun parse (good ++ r :: rest)).2 = true ∧
    connWrites s parse (good ++ r :: rest) = connWrites s parse good := by
  have key : (workerRun parse (good ++ r :: rest)).1 = (workerRun parse good).1 ∧
      (workerRun parse (good ++ r :: rest)).2 = true := by
    induction good with
    | nil => simp [workerRun, hfail]
    | cons g gs ih =>
        simp only [List.cons_append, workerRun]
        cases hi : workerIteration parse g with
        | none => simp
        | some f => simpa using ih
  refine ⟨key.1, key.2, ?_⟩
  unfold connWrites
  rw [key.1]

/-- Witness for C5: one good read then a malformed packet; the responses for
the whole trace equal the responses for the good prefix and the worker
terminated. -/
theorem worker_failure_silent_witness :
    (workerRun wParse ([ReadResult.bytes [6]] ++ ReadResult.bytes [7] :: [])).1 =
      (workerRun wParse [ReadResult.bytes [6]]).1 ∧
    (workerRun wParse ([ReadResult.bytes [6]] ++ ReadResult.bytes [7] :: [])).2 = true ∧
    connWrites wServerOk wParse ([ReadResult.bytes [6]] ++ ReadResult.bytes [7] :: []) =
      connWrites wServerOk wParse [ReadResult.bytes [6]] :=
  worker_failure_silent wParse wServerOk [ReadResult.bytes [6]]
    (ReadResult.bytes [7]) [] rfl

/-- Running the accept loop on connections followed by a terminal trace is
the connections prepended to the run on the terminal trace. -/
theorem acceptLoop_conns_append (cs : List Nat) (t : List AcceptResult) :
    acceptLoop (cs.map AcceptResult.conn ++ t) =
      (cs ++ (acceptLoop t).1, (acceptLoop t).2.1, (acceptLoop t).2.2) := by
  induction cs with
  | nil => simp
  | cons c cs ih => simp [acceptLoop, ih]

/-- C6: after accepting any number of connections, an accept error whose
message contains the closed-listener fragment makes the loop return nil with
nothing logged (normal termination), while any other accept error is logged
and returned as the loop's error. -/
theorem accept_closed_vs_error (cs : List Nat) (m : String) :
    (acceptLoop (cs.map AcceptResult.conn ++ [AcceptResult.acceptErr m])).1 = cs ∧
    (goContains m closedListenerMsg = true →
        (acceptLoop (cs.map AcceptResult.conn ++ [AcceptResult.acceptErr m])).2 =
          ([], AcceptOutcome.returnedNil)) ∧
    (goContains m closedListenerMsg = false →
        (acceptLoop (cs.map AcceptResult.conn ++ [AcceptResult.acceptErr m])).2 =
          (["Unable to accept connections: " ++ m], AcceptOutcome.returnedErr m)) := by
  rw [acceptLoop_conns_append]
  refine ⟨?_, ?_, ?_⟩
  · cases hcl : goContains m closedListenerMsg <;> simp [acceptLoop, hcl]
  · intro hcl
    simp [acceptLoop, hcl]
  · intro hcl
    simp [acceptLoop, hcl]

/-- Witness for C6: one accepted connection, then the Go closed-listener
error message: the loop hands the connection to a worker, returns nil and
logs nothing. -/
theorem accept_closed_vs_error_witness :
    (acceptLoop ([3].map AcceptResult.conn
        ++ [AcceptResult.acceptErr "accept tcp 127.0.0.1:1502: use of closed network connection"])).1 = [3] ∧
    (acceptLoop ([3].map AcceptResult.conn
        ++ [AcceptResult.acceptErr "accept tcp 127.0.0.1:1502: use of closed network connection"])).2 =
      ([], AcceptOutcome.returnedNil) :=
  ⟨(accept_closed_vs_error [3] _).1,
   (accept_closed_vs_error [3] _).2.1 (by decide)⟩

/-- C7: ListenTCP on a bind failure logs it and returns the error with the
server record unchanged — no hook fired, no listener recorded, no accept
loop started; on success it fires every server-started hook in registration
order with the new listener, appends it to the recorded listeners, starts
the accept loop, and returns no error. -/
theorem listenTCP_contract (s : Server) (m : String) (l : Nat) :
    ((s.ListenTCP (BindResult.bindErr m)).1 = s ∧
     (s.ListenTCP (BindResult.bindErr m)).2.1 = some m ∧
     (s.ListenTCP (BindResult.bindErr m)).2.2 =
       [ListenEvent.log ("Failed to Listen: " ++ m)]) ∧
    ((s.ListenTCP (BindResult.ok l)).1.listeners = s.listeners ++ [l] ∧
     (s.ListenTCP (BindResult.ok l)).1.function = s.function ∧
     (s.ListenTCP (BindResult.ok l)).1.banks = s.banks ∧
     (s.ListenTCP (BindResult.ok l)).2.1 = none ∧
     (s.ListenTCP (BindResult.ok l)).2.2 =
       s.serverStartedEvent.map (fun h => ListenEvent.firedStarted h l)
         ++ [ListenEvent.startedAcceptLoop l]) :=
  ⟨⟨rfl, rfl, rfl⟩, ⟨rfl, rfl, rfl, rfl, rfl⟩⟩

/-- C8: the shutdown trace is exactly: per recorded listener, close it then
fire each server-stopped hook with it; then the stop signal on the shared
channel; then the wait on the counted barrier; then the port closes — so the
barrier wait (which completes only once every port-style worker has exited)
separates the stop signal from the port closes and precedes Close's return. -/
theorem close_shutdown_order (s : Server) :
    ∃ listenerPhase,
      s.closeTrace = listenerPhase
          ++ [CloseAction.signalStop, CloseAction.waitBarrier]
          ++ s.ports.map CloseAction.closePort ∧
      listenerPhase = s.listeners.flatMap (fun l =>
          CloseAction.closeListener l
            :: s.serverStoppedEvent.map (fun h => CloseAction.fireStopped h l)) ∧
      (∀ a ∈ listenerPhase,
          (∃ l ∈ s.listeners, a = CloseAction.closeListener l) ∨
          (∃ h ∈ s.serverStoppedEvent, ∃ l ∈ s.listeners,
              a = CloseAction.fireStopped h l)) := by
  refine ⟨_, rfl, rfl, ?_⟩
  intro a ha
  simp only [List.mem_flatMap, List.mem_cons, List.mem_map] at ha
  obtain ⟨l, hl, hcase⟩ := ha
  cases hcase with
  | inl h1 => exact Or.inl ⟨l, hl, h1⟩
  | inr h2 =>
      obtain ⟨h, hh, rfl⟩ := h2
      exact Or.inr ⟨h, hh, l, hl, rfl⟩

/-- Witness for C8 on a concrete server with two listeners, two stopped
hooks and one port, spelling the whole ordered trace. -/
theorem close_shutdown_order_witness :
    wServerOk.closeTrace =
      [CloseAction.closeListener 4, CloseAction.fireStopped 0 4,
       CloseAction.fireStopped 1 4, CloseAction.closeListener 5,
       CloseAction.fireStopped 0 5, CloseAction.fireStopped 1 5,
       CloseAction.signalStop, CloseAction.waitBarrier,
       CloseAction.closePort 9] := by
  obtain ⟨lp, h1, h2, -⟩ := close_shutdown_order wServerOk
  rw [h1, h2]
  rfl

/-- C10: Close leaves the dispatcher goroutine running and the request
channel open, and does not change the function table or the memory banks;
a request handed off after Close is still received by the dispatcher,
dispatched through the same function table, and answered with the same
response frame as before Close. -/
theorem close_keeps_dispatcher (s : Server) (req : Framer) :
    s.closeState.function = s.function ∧
    s.closeState.banks = s.banks ∧
    s.closeState.requestChanOpen = s.requestChanOpen ∧
    s.closeState.dispatcherRunning = s.dispatcherRunning ∧
    s.closeState.dispatcherReceives = s.dispatcherReceives ∧
    (s.closeState.handle req).2 = (s.handle req).2 ∧
    (dispatchLoop s.closeState [req]).2 = [(s.handle req).2] := by
  refine ⟨rfl, rfl, rfl, rfl, rfl, ?_, ?_⟩
  · cases hfn : s.function req.GetFunction with
    | none => simp [Server.handle, Server.closeState, hfn]
    | some h => simp [Server.handle, Server.closeState, hfn]
  · cases hfn : s.function req.GetFunction with
    | none => simp [dispatchLoop, Server.handle, Server.closeState, hfn]
    | some h => simp [dispatchLoop, Server.handle, Server.closeState, hfn]

end Mbserver
